import Mathlib

/-!
Shallow embedding of the turbine-llm provider-abstraction core: the neutral
data model (`Message`, `LLMRequest`), the error taxonomy (`TurbineError`),
the model-string resolver (`Provider.from_model_string`), and the pure
translation phase of each provider adapter (everything `send_request` does
before the HTTP call is issued).  Network I/O and response parsing are out
of scope; a translation function that returns `Except.error` models an
adapter that returns before any HTTP request is built.
-/

set_option autoImplicit false

/-- Error taxonomy, mirroring `TurbineError` in `src/error.rs`.  Variants that
wrap foreign error values in Rust (`reqwest::Error`, `serde_json::Error`,
`std::env::VarError`) carry their rendering as a plain string here. -/
inductive TurbineError where
  | ApiKeyNotFound (s : String)
  | HttpError (s : String)
  | JsonError (s : String)
  | ApiError (s : String)
  | InvalidResponse (s : String)
  | EnvError (s : String)
  | MissingField (s : String)
deriving DecidableEq, Repr

/-- The constructor name of an error value: the "kind" of the error,
independent of its message payload. -/
def TurbineError.kind : TurbineError → String
  | .ApiKeyNotFound _ => "ApiKeyNotFound"
  | .HttpError _ => "HttpError"
  | .JsonError _ => "JsonError"
  | .ApiError _ => "ApiError"
  | .InvalidResponse _ => "InvalidResponse"
  | .EnvError _ => "EnvError"
  | .MissingField _ => "MissingField"

/-- Provider identities, mirroring `Provider` in `src/types.rs`. -/
inductive Provider where
  | OpenAI
  | Anthropic
  | Gemini
  | Groq
deriving DecidableEq, Repr

/-- `Provider::env_var` from `src/types.rs`. -/
def Provider.env_var : Provider → String
  | .OpenAI => "OPENAI_API_KEY"
  | .Anthropic => "ANTHROPIC_API_KEY"
  | .Gemini => "GEMINI_API_KEY"
  | .Groq => "GROQ_API_KEY"

/-- `str::to_lowercase` as used on the ASCII model strings: lower-case each
character. -/
def rust_to_lowercase (s : String) : String :=
  ⟨s.data.map Char.toLower⟩

/-- `str::starts_with` on a string pattern. -/
def rust_starts_with (s pat : String) : Bool :=
  pat.data.isPrefixOf s.data

/-- Character-level model of `str::split_once('/')`: `none` when no `/`
occurs, otherwise the parts strictly before and strictly after the first
`/`. -/
def splitOnceAux : List Char → Option (List Char × List Char)
  | [] => none
  | c :: cs =>
    if c = '/' then some ([], cs)
    else
      match splitOnceAux cs with
      | some (pre, post) => some (c :: pre, post)
      | none => none

/-- `str::split_once('/')` lifted to `String`. -/
def split_once (s : String) : Option (String × String) :=
  match splitOnceAux s.data with
  | some (pre, post) => some (⟨pre⟩, ⟨post⟩)
  | none => none

/-- The prefix table of `Provider::from_model_string` (`src/types.rs`
lines 79-90): the `match prefix.to_lowercase().as_str()` arms, with `none`
for the fall-through arm. -/
def explicit_provider (pfx : String) : Option Provider :=
  let pl := rust_to_lowercase pfx
  if pl = "openai" then some Provider.OpenAI
  else if pl = "anthropic" then some Provider.Anthropic
  else if pl = "google" ∨ pl = "gemini" then some Provider.Gemini
  else if pl = "groq" then some Provider.Groq
  else none

/-- The inference half of `Provider::from_model_string` (`src/types.rs`
lines 94-111): prefix heuristics over the lower-cased model name. -/
def infer_from_name (model : String) : Except TurbineError (Provider × String) :=
  let model_lower := rust_to_lowercase model
  if rust_starts_with model_lower "gpt" then Except.ok (Provider.OpenAI, model)
  else if rust_starts_with model_lower "claude" then Except.ok (Provider.Anthropic, model)
  else if rust_starts_with model_lower "gemini" then Except.ok (Provider.Gemini, model)
  else if rust_starts_with model_lower "llama" || rust_starts_with model_lower "mixtral" then
    Except.ok (Provider.Groq, model)
  else
    Except.error (TurbineError.InvalidResponse
      ("Cannot infer provider from model name: " ++ model ++
        ". Use format \x27provider/model\x27 (e.g., \x27openai/gpt-4\x27)"))

/-- `Provider::from_model_string` (`src/types.rs` lines 76-112). -/
def Provider.from_model_string (model : String) : Except TurbineError (Provider × String) :=
  match split_once model with
  | some (pfx, model_name) =>
    match explicit_provider pfx with
    | some provider => Except.ok (provider, model_name)
    | none =>
      Except.error (TurbineError.InvalidResponse
        ("Unknown provider prefix: " ++ pfx ++
          ". Supported: openai, anthropic, google, gemini, groq"))
  | none => infer_from_name model

/-- The error produced by resolving a model string, when resolution fails. -/
def resolveError (s : String) : Option TurbineError :=
  match Provider.from_model_string s with
  | Except.error e => some e
  | Except.ok _ => none

theorem splitOnceAux_no_slash (l : List Char) (h : '/' ∉ l) : splitOnceAux l = none := by
  induction l with
  | nil => rfl
  | cons c cs ih =>
    simp only [List.mem_cons, not_or] at h
    simp [splitOnceAux, Ne.symm h.1, ih h.2]

theorem splitOnceAux_first_slash (l r : List Char) (h : '/' ∉ l) :
    splitOnceAux (l ++ '/' :: r) = some (l, r) := by
  induction l with
  | nil => simp [splitOnceAux]
  | cons c cs ih =>
    simp only [List.mem_cons, not_or] at h
    simp [splitOnceAux, Ne.symm h.1, ih h.2]

theorem split_once_no_slash (s : String) (h : '/' ∉ s.data) : split_once s = none := by
  simp [split_once, splitOnceAux_no_slash s.data h]

theorem split_once_append (pre post : String) (h : '/' ∉ pre.data) :
    split_once (pre ++ "/" ++ post) = some (pre, post) := by
  have hdata : (pre ++ "/" ++ post).data = pre.data ++ '/' :: post.data := by
    simp [String.data_append]
  simp [split_once, hdata, splitOnceAux_first_slash pre.data post.data h]

/-- Output format, mirroring `OutputFormat` in `src/types.rs`. -/
inductive OutputFormat where
  | Text
  | Json
deriving DecidableEq, Repr

/-- A chat message, mirroring `Message` in `src/models.rs`. -/
structure Message where
  role : String
  content : String
deriving DecidableEq, Repr

/-- `Message::new`. -/
def Message.new (role content : String) : Message := { role, content }

/-- `Message::user`. -/
def Message.user (content : String) : Message := Message.new "user" content

/-- `Message::assistant`. -/
def Message.assistant (content : String) : Message := Message.new "assistant" content

/-- `Message::system`. -/
def Message.system (content : String) : Message := Message.new "system" content

/-- The neutral request, mirroring `LLMRequest` in `src/models.rs`.
`u32` token counts become `Nat` (they are only stored and compared, never
subject to overflow arithmetic); `f32` sampling parameters become `Float`
(only carried, never computed with). -/
structure LLMRequest where
  model : String
  messages : List Message
  system_prompt : Option String
  max_tokens : Option Nat
  temperature : Option Float
  top_p : Option Float
  output_format : OutputFormat

/-- `LLMRequest::new` (`src/models.rs` lines 133-143). -/
def LLMRequest.new (model : String) : LLMRequest :=
  { model
    messages := []
    system_prompt := none
    max_tokens := some 1024
    temperature := none
    top_p := none
    output_format := OutputFormat.Text }

/-- `LLMRequest::with_message`: pushes one message onto the end. -/
def LLMRequest.with_message (r : LLMRequest) (message : Message) : LLMRequest :=
  { r with messages := r.messages ++ [message] }

/-- `LLMRequest::with_messages`: replaces the whole message list. -/
def LLMRequest.with_messages (r : LLMRequest) (messages : List Message) : LLMRequest :=
  { r with messages := messages }

/-- `LLMRequest::with_system_prompt`. -/
def LLMRequest.with_system_prompt (r : LLMRequest) (p : String) : LLMRequest :=
  { r with system_prompt := some p }

/-- `LLMRequest::with_max_tokens`. -/
def LLMRequest.with_max_tokens (r : LLMRequest) (n : Nat) : LLMRequest :=
  { r with max_tokens := some n }

/-- `LLMRequest::with_temperature`. -/
def LLMRequest.with_temperature (r : LLMRequest) (t : Float) : LLMRequest :=
  { r with temperature := some t }

/-- `LLMRequest::with_top_p`. -/
def LLMRequest.with_top_p (r : LLMRequest) (t : Float) : LLMRequest :=
  { r with top_p := some t }

/-- `LLMRequest::with_output_format`. -/
def LLMRequest.with_output_format (r : LLMRequest) (f : OutputFormat) : LLMRequest :=
  { r with output_format := f }

/-! ## OpenAI-compatible adapter (`src/providers/openai.rs`) -/

/-- The wire `response_format` object. -/
structure ResponseFormat where
  format_type : String
deriving DecidableEq, Repr

/-- The OpenAI wire request body (`OpenAIRequestBody`).  `Option` fields model
the serializer's skip-if-none behavior: `none` means the field is omitted
from the wire payload. -/
structure OpenAIRequestBody where
  model : String
  messages : List Message
  max_tokens : Option Nat
  temperature : Option Float
  top_p : Option Float
  response_format : Option ResponseFormat

/-- `src/providers/openai.rs` lines 74-77: insert the system prompt (when
present) as a brand-new first message. -/
def openai_insert_system_prompt (system_prompt : Option String) (messages : List Message) :
    List Message :=
  match system_prompt with
  | some p => Message.system p :: messages
  | none => messages

/-- The fixed OpenAI JSON-mode instruction. -/
def openai_json_instruction : String := "You must respond with valid JSON only."

/-- `src/providers/openai.rs` lines 79-89: the JSON-mode instruction step.
The Rust code is `if let Some(first_msg) = messages.first_mut() { if
first_msg.role == "system" { append } } else { insert }`: the `else` belongs
to the `if let`, so the insertion of a new system message happens only when
the list is empty; a non-system first message leaves the list unchanged. -/
def openai_json_inject (output_format : OutputFormat) (messages : List Message) :
    List Message :=
  if output_format = OutputFormat.Json then
    match messages with
    | [] => [Message.system openai_json_instruction]
    | first_msg :: rest =>
      if first_msg.role == "system" then
        { first_msg with content := first_msg.content ++ " " ++ openai_json_instruction } :: rest
      else
        first_msg :: rest
  else
    messages

/-- The translation phase of `OpenAIProvider::send_request`
(`src/providers/openai.rs` lines 71-106): everything up to the construction
of the wire body, before the HTTP POST. -/
def openai_build_body (request : LLMRequest) : OpenAIRequestBody :=
  let messages := openai_insert_system_prompt request.system_prompt request.messages
  let messages := openai_json_inject request.output_format messages
  let response_format :=
    if request.output_format = OutputFormat.Json then
      some { format_type := "json_object" }
    else
      none
  { model := request.model
    messages
    max_tokens := request.max_tokens
    temperature := request.temperature
    top_p := request.top_p
    response_format }

/-! ## Anthropic adapter (`src/providers/anthropic.rs`) -/

/-- The Anthropic wire request body (`AnthropicRequestBody`); `system` is
omitted from the wire payload when `none`. -/
structure AnthropicRequestBody where
  model : String
  messages : List Message
  max_tokens : Nat
  system : Option String
  temperature : Option Float
  top_p : Option Float

/-- The fixed Anthropic JSON-mode instruction. -/
def anthropic_json_instruction : String :=
  "You must respond with valid JSON only. Start your response with an opening brace \x7b."

/-- `src/providers/anthropic.rs` lines 81-91: build the wire `system` field
from the request's system prompt and output format. -/
def anthropic_system (system_prompt : Option String) (output_format : OutputFormat) :
    Option String :=
  if output_format = OutputFormat.Json then
    some (match system_prompt with
      | some existing => existing ++ " " ++ anthropic_json_instruction
      | none => anthropic_json_instruction)
  else
    system_prompt

/-- The translation phase of `AnthropicProvider::send_request`
(`src/providers/anthropic.rs` lines 66-100): filter out system messages,
fail with `MissingField` when nothing remains (the Rust early `return Err`
before any HTTP request exists), otherwise build the wire body. -/
def anthropic_build_body (request : LLMRequest) : Except TurbineError AnthropicRequestBody :=
  let messages := request.messages.filter (fun m => m.role != "system")
  if messages.isEmpty then
    Except.error (TurbineError.MissingField
      "At least one user or assistant message is required")
  else
    Except.ok
      { model := request.model
        messages
        max_tokens := request.max_tokens.getD 1024
        system := anthropic_system request.system_prompt request.output_format
        temperature := request.temperature
        top_p := request.top_p }

/-! ## Gemini adapter (`src/providers/gemini.rs`) -/

/-- A wire content part. -/
structure GeminiPart where
  text : String
deriving DecidableEq, Repr

/-- A wire content entry. -/
structure Content where
  role : String
  parts : List GeminiPart
deriving DecidableEq, Repr

/-- The wire `systemInstruction` object. -/
structure SystemInstruction where
  parts : List GeminiPart
deriving DecidableEq, Repr

/-- The wire `generationConfig` object. -/
structure GenerationConfig where
  temperature : Option Float
  top_p : Option Float
  max_output_tokens : Option Nat
  response_mime_type : Option String

/-- The Gemini wire request body (`GeminiRequestBody`). -/
structure GeminiRequestBody where
  contents : List Content
  system_instruction : Option SystemInstruction
  generation_config : Option GenerationConfig

/-- `src/providers/gemini.rs` lines 103-123: the message-conversion loop.
A `system` message hits `continue` and contributes nothing; `assistant`
becomes wire role `"model"`; everything else becomes wire role `"user"`. -/
def gemini_contents : List Message → List Content
  | [] => []
  | message :: rest =>
    if message.role == "system" then
      gemini_contents rest
    else
      { role := if message.role == "assistant" then "model" else "user"
        parts := [{ text := message.content }] } :: gemini_contents rest

/-- The translation phase of `GeminiProvider::send_request`
(`src/providers/gemini.rs` lines 101-159): convert messages, fail with
`MissingField` when the converted list is empty (before any HTTP request is
built), otherwise assemble the wire body. -/
def gemini_build_body (request : LLMRequest) : Except TurbineError GeminiRequestBody :=
  let contents := gemini_contents request.messages
  if contents.isEmpty then
    Except.error (TurbineError.MissingField
      "At least one user or assistant message is required")
  else
    Except.ok
      { contents
        system_instruction :=
          request.system_prompt.map (fun prompt => { parts := [{ text := prompt }] })
        generation_config := some
          { temperature := request.temperature
            top_p := request.top_p
            max_output_tokens := request.max_tokens
            response_mime_type :=
              if request.output_format = OutputFormat.Json then
                some "application/json"
              else
                none } }

/-! ## Client facade (`src/client.rs`) -/

/-- The client facade state: the bound provider identity with its credential
(standing for the boxed adapter instance) and the optional default model
name.  Mirrors `TurbineClient` in `src/client.rs`. -/
structure TurbineClient where
  provider : Provider
  api_key : String
  default_model : Option String

/-- `TurbineClient::new_with_key` (`src/client.rs` lines 86-99): explicit
vendor construction records no default model. -/
def TurbineClient.new_with_key (provider : Provider) (api_key : String) : TurbineClient :=
  { provider, api_key, default_model := none }

/-- `TurbineClient::from_model_with_key` (`src/client.rs` lines 179-194):
resolve the model string, bind the resolved provider, and record the
resolved model name as the default model. -/
def TurbineClient.from_model_with_key (model_str api_key : String) :
    Except TurbineError TurbineClient :=
  match Provider.from_model_string model_str with
  | Except.error e => Except.error e
  | Except.ok (provider, model_name) =>
    Except.ok { provider, api_key, default_model := some model_name }

/-- The request-building phase of `TurbineClient::send` (`src/client.rs`
lines 250-261): fail with `MissingField` when no default model is recorded
(the Rust `ok_or_else` early return, before any request is built), otherwise
produce the one-message request that is delegated to the bound adapter. -/
def TurbineClient.send_build (client : TurbineClient) (message : String) :
    Except TurbineError LLMRequest :=
  match client.default_model with
  | none =>
    Except.error (TurbineError.MissingField
      "No default model set. Use from_model() constructor or send_request() directly")
  | some model =>
    Except.ok ((LLMRequest.new model).with_message (Message.user message))

/-! ## Builder-chain model for the `max_tokens` invariant -/

/-- One step of the public `LLMRequest` builder chain. -/
inductive BuilderStep where
  | withMessage (m : Message)
  | withMessages (ms : List Message)
  | withSystemPrompt (p : String)
  | withMaxTokens (n : Nat)
  | withTemperature (t : Float)
  | withTopP (t : Float)
  | withOutputFormat (f : OutputFormat)

/-- Whether a builder step is `with_max_tokens`. -/
def BuilderStep.isWithMaxTokens : BuilderStep → Bool
  | .withMaxTokens _ => true
  | _ => false

/-- Apply one builder step. -/
def applyStep (r : LLMRequest) : BuilderStep → LLMRequest
  | .withMessage m => r.with_message m
  | .withMessages ms => r.with_messages ms
  | .withSystemPrompt p => r.with_system_prompt p
  | .withMaxTokens n => r.with_max_tokens n
  | .withTemperature t => r.with_temperature t
  | .withTopP t => r.with_top_p t
  | .withOutputFormat f => r.with_output_format f

/-- Apply a chain of builder steps in order. -/
def applySteps (r : LLMRequest) (steps : List BuilderStep) : LLMRequest :=
  steps.foldl applyStep r

/-! ## Helper lemmas -/

theorem explicit_provider_eq_none (pfx : String)
    (h : rust_to_lowercase pfx ∉ (["openai", "anthropic", "google", "gemini", "groq"] : List String)) :
    explicit_provider pfx = none := by
  simp only [List.mem_cons, List.not_mem_nil, or_false, not_or] at h
  obtain ⟨h1, h2, h3, h4, h5⟩ := h
  simp [explicit_provider, h1, h2, h3, h4, h5]

theorem resolver_explicit_model_name (pre post : String) (prov : Provider) (m : String)
    (h : '/' ∉ pre.data)
    (hok : Provider.from_model_string (pre ++ "/" ++ post) = Except.ok (prov, m)) :
    m = post := by
  simp only [Provider.from_model_string, split_once_append pre post h] at hok
  cases heq : explicit_provider pre with
  | some p =>
    rw [heq] at hok
    simp only [Except.ok.injEq, Prod.mk.injEq] at hok
    exact hok.2.symm
  | none =>
    rw [heq] at hok
    exact absurd hok (by simp)

theorem resolver_infer_model_name (s : String) (prov : Provider) (m : String)
    (h : '/' ∉ s.data) (hok : Provider.from_model_string s = Except.ok (prov, m)) :
    m = s := by
  simp only [Provider.from_model_string, split_once_no_slash s h] at hok
  simp only [infer_from_name] at hok
  split at hok
  · simp only [Except.ok.injEq, Prod.mk.injEq] at hok
    exact hok.2.symm
  · split at hok
    · simp only [Except.ok.injEq, Prod.mk.injEq] at hok
      exact hok.2.symm
    · split at hok
      · simp only [Except.ok.injEq, Prod.mk.injEq] at hok
        exact hok.2.symm
      · split at hok
        · simp only [Except.ok.injEq, Prod.mk.injEq] at hok
          exact hok.2.symm
        · exact absurd hok (by simp)

/-! ## Claim theorems -/

/-- C2 counterexample: the claim asserts the two resolution-failure modes carry
distinct error kinds (`UnknownProvider` vs `ProviderInferenceFailed`).  In the
code both are the single variant `TurbineError::InvalidResponse`: at the
claim's own example inputs the two failures have the same kind. -/
theorem C2_counterexample_same_error_kind :
    (resolveError "unknownvendor/foo").map TurbineError.kind = some "InvalidResponse" ∧
    (resolveError "xyz123").map TurbineError.kind = some "InvalidResponse" ∧
    (resolveError "unknownvendor/foo").map TurbineError.kind =
      (resolveError "xyz123").map TurbineError.kind :=
  ⟨rfl, rfl, rfl⟩

/-- C2 (amended): an unmatched explicit prefix fails with `InvalidResponse`
whose message carries the prefix and lists the supported prefixes; a model
string without `/` matching none of the inference patterns fails with
`InvalidResponse` whose message carries the model string.  Both failures use
the same error kind, distinguished only by message text. -/
theorem C2_resolution_failures :
    (∀ pre post : String, '/' ∉ pre.data →
        rust_to_lowercase pre ∉ (["openai", "anthropic", "google", "gemini", "groq"] : List String) →
        Provider.from_model_string (pre ++ "/" ++ post) =
          Except.error (TurbineError.InvalidResponse
            ("Unknown provider prefix: " ++ pre ++
              ". Supported: openai, anthropic, google, gemini, groq"))) ∧
    (∀ s : String, '/' ∉ s.data →
        rust_starts_with (rust_to_lowercase s) "gpt" = false →
        rust_starts_with (rust_to_lowercase s) "claude" = false →
        rust_starts_with (rust_to_lowercase s) "gemini" = false →
        rust_starts_with (rust_to_lowercase s) "llama" = false →
        rust_starts_with (rust_to_lowercase s) "mixtral" = false →
        Provider.from_model_string s =
          Except.error (TurbineError.InvalidResponse
            ("Cannot infer provider from model name: " ++ s ++
              ". Use format \x27provider/model\x27 (e.g., \x27openai/gpt-4\x27)"))) := by
  constructor
  · intro pre post hslash hmem
    simp only [Provider.from_model_string, split_once_append pre post hslash,
      explicit_provider_eq_none pre hmem]
  · intro s hslash h1 h2 h3 h4 h5
    simp only [Provider.from_model_string, split_once_no_slash s hslash,
      infer_from_name, h1, h2, h3, h4, h5, Bool.or_self, Bool.false_eq_true, if_false]

/-- C2 witness: the amended theorem applied at the claim's own inputs. -/
theorem C2_resolution_failures_witness :
    Provider.from_model_string ("unknownvendor" ++ "/" ++ "foo") =
      Except.error (TurbineError.InvalidResponse
        ("Unknown provider prefix: " ++ "unknownvendor" ++
          ". Supported: openai, anthropic, google, gemini, groq")) ∧
    Provider.from_model_string "xyz123" =
      Except.error (TurbineError.InvalidResponse
        ("Cannot infer provider from model name: " ++ "xyz123" ++
          ". Use format \x27provider/model\x27 (e.g., \x27openai/gpt-4\x27)")) :=
  ⟨C2_resolution_failures.1 "unknownvendor" "foo" (by decide) (by decide),
   C2_resolution_failures.2 "xyz123" (by decide) (by decide) (by decide) (by decide)
     (by decide) (by decide)⟩

/-- C3: the resolver correctness table holds, and in general the returned
model name is the substring after the first `/` in the explicit-prefix case
and the original string unchanged in the inference case. -/
theorem C3_resolver_table :
    Provider.from_model_string "google/gemini-flash" =
      Except.ok (Provider.Gemini, "gemini-flash") ∧
    Provider.from_model_string "claude-3-5-sonnet" =
      Except.ok (Provider.Anthropic, "claude-3-5-sonnet") ∧
    Provider.from_model_string "gpt-4o-mini" =
      Except.ok (Provider.OpenAI, "gpt-4o-mini") ∧
    Provider.from_model_string "unknownvendor/foo" =
      Except.error (TurbineError.InvalidResponse
        "Unknown provider prefix: unknownvendor. Supported: openai, anthropic, google, gemini, groq") ∧
    Provider.from_model_string "xyz123" =
      Except.error (TurbineError.InvalidResponse
        "Cannot infer provider from model name: xyz123. Use format \x27provider/model\x27 (e.g., \x27openai/gpt-4\x27)") ∧
    (∀ (pre post : String) (prov : Provider) (m : String), '/' ∉ pre.data →
        Provider.from_model_string (pre ++ "/" ++ post) = Except.ok (prov, m) → m = post) ∧
    (∀ (s : String) (prov : Provider) (m : String), '/' ∉ s.data →
        Provider.from_model_string s = Except.ok (prov, m) → m = s) :=
  ⟨rfl, rfl, rfl, rfl, rfl, resolver_explicit_model_name, resolver_infer_model_name⟩

/-- C3 witness: the general model-name clauses applied at concrete inputs. -/
theorem C3_resolver_table_witness :
    ("gemini-flash" : String) = "gemini-flash" ∧ ("claude-3-5-sonnet" : String) = "claude-3-5-sonnet" :=
  ⟨C3_resolver_table.2.2.2.2.2.1 "google" "gemini-flash" Provider.Gemini "gemini-flash"
      (by decide) (by rfl),
   C3_resolver_table.2.2.2.2.2.2 "claude-3-5-sonnet" Provider.Anthropic "claude-3-5-sonnet"
      (by decide) (by rfl)⟩



theorem anthropic_build_body_ok (request : LLMRequest) (body : AnthropicRequestBody)
    (h : anthropic_build_body request = Except.ok body) :
    body = { model := request.model
             messages := request.messages.filter (fun m => m.role != "system")
             max_tokens := request.max_tokens.getD 1024
             system := anthropic_system request.system_prompt request.output_format
             temperature := request.temperature
             top_p := request.top_p } := by
  simp only [anthropic_build_body] at h
  split at h
  · exact absurd h (by simp)
  · exact (Except.ok.inj h).symm

theorem gemini_build_body_ok (request : LLMRequest) (body : GeminiRequestBody)
    (h : gemini_build_body request = Except.ok body) :
    body = { contents := gemini_contents request.messages
             system_instruction :=
               request.system_prompt.map (fun prompt => { parts := [{ text := prompt }] })
             generation_config := some
               { temperature := request.temperature
                 top_p := request.top_p
                 max_output_tokens := request.max_tokens
                 response_mime_type :=
                   if request.output_format = OutputFormat.Json then
                     some "application/json"
                   else
                     none } } := by
  simp only [gemini_build_body] at h
  split at h
  · exact absurd h (by simp)
  · exact (Except.ok.inj h).symm

theorem gemini_contents_eq_filterMap (messages : List Message) :
    gemini_contents messages = messages.filterMap (fun m =>
      if m.role = "system" then none
      else some { role := if m.role = "assistant" then "model" else "user"
                  parts := [{ text := m.content }] }) := by
  induction messages with
  | nil => rfl
  | cons m rest ih =>
    by_cases h : m.role = "system"
    · simp [gemini_contents, List.filterMap_cons, h, ih]
    · simp [gemini_contents, List.filterMap_cons, h, ih]

theorem gemini_contents_eq_nil_iff (messages : List Message) :
    gemini_contents messages = [] ↔
      messages.filter (fun m => m.role != "system") = [] := by
  induction messages with
  | nil => simp [gemini_contents]
  | cons m rest ih =>
    by_cases h : m.role = "system"
    · simp [gemini_contents, List.filter_cons, h, ih]
    · simp [gemini_contents, List.filter_cons, h, ih]

/-- C1 counterexample: a JSON-mode request whose message list is non-empty
with a non-system first message.  The claim predicts a brand-new system
message at position 0; the adapter leaves the list unchanged, because the
`else` of the Rust `if let` runs only when the list is empty. -/
theorem C1_counterexample_no_insertion :
    (openai_build_body
      { model := "gpt-4o-mini"
        messages := [Message.user "hi"]
        system_prompt := none
        max_tokens := some 1024
        temperature := none
        top_p := none
        output_format := OutputFormat.Json }).messages = [Message.user "hi"] ∧
    ([Message.user "hi"] : List Message) ≠
      [Message.system openai_json_instruction, Message.user "hi"] :=
  ⟨rfl, by decide⟩

/-- C1 (amended): with `output_format == Json`, the instruction is appended
(space-separated) to the first message when its role is `system`; a brand-new
system message is inserted only when the post-insertion list is empty; a
non-empty list whose first message has a non-system role is left unchanged;
`Text` mode never changes the list.  The adapter wire messages are exactly
this step applied after system-prompt insertion. -/
theorem C1_openai_json_injection :
    (∀ (first_msg : Message) (rest : List Message), first_msg.role = "system" →
        openai_json_inject OutputFormat.Json (first_msg :: rest) =
          { first_msg with
            content := first_msg.content ++ " " ++ openai_json_instruction } :: rest) ∧
    (openai_json_inject OutputFormat.Json [] = [Message.system openai_json_instruction]) ∧
    (∀ (first_msg : Message) (rest : List Message), first_msg.role ≠ "system" →
        openai_json_inject OutputFormat.Json (first_msg :: rest) = first_msg :: rest) ∧
    (∀ messages : List Message, openai_json_inject OutputFormat.Text messages = messages) ∧
    (∀ request : LLMRequest,
        (openai_build_body request).messages =
          openai_json_inject request.output_format
            (openai_insert_system_prompt request.system_prompt request.messages)) := by
  refine ⟨?_, rfl, ?_, fun messages => rfl, fun request => rfl⟩
  · intro first_msg rest h
    simp [openai_json_inject, h]
  · intro first_msg rest h
    simp [openai_json_inject, h]

/-- C1 witness: the amended theorem applied at a system-first list and at the
empty list. -/
theorem C1_openai_json_injection_witness :
    openai_json_inject OutputFormat.Json [Message.system "s"] =
      [{ role := "system", content := "s" ++ " " ++ openai_json_instruction }] ∧
    openai_json_inject OutputFormat.Json [Message.user "hi"] = [Message.user "hi"] :=
  ⟨C1_openai_json_injection.1 (Message.system "s") [] rfl,
   C1_openai_json_injection.2.2.1 (Message.user "hi") [] (by decide)⟩

/-- The request of the Anthropic system-filtering scenario: messages
`[system, user, assistant, user]` and no explicit system prompt. -/
def anthropic_example_request : LLMRequest :=
  { model := "claude-3-5-sonnet"
    messages := [Message.system "be brief", Message.user "hi",
      Message.assistant "hello", Message.user "bye"]
    system_prompt := none
    max_tokens := some 1024
    temperature := none
    top_p := none
    output_format := OutputFormat.Text }

/-- C4: whenever the Anthropic adapter produces a wire body, its message list
is exactly the non-system messages of the request in their original relative
order; the `[system, user, assistant, user]` scenario yields exactly the
3 non-system messages in order. -/
theorem C4_anthropic_system_filtering :
    (∀ (request : LLMRequest) (body : AnthropicRequestBody),
        anthropic_build_body request = Except.ok body →
          body.messages = request.messages.filter (fun m => m.role != "system") ∧
          body.messages.Sublist request.messages ∧
          (∀ m ∈ body.messages, m.role ≠ "system") ∧
          (∀ m ∈ request.messages, m.role ≠ "system" → m ∈ body.messages)) ∧
    (∃ body, anthropic_build_body anthropic_example_request = Except.ok body ∧
        body.messages = [Message.user "hi", Message.assistant "hello", Message.user "bye"]) := by
  constructor
  · intro request body h
    have hb : body.messages = request.messages.filter (fun m => m.role != "system") := by
      rw [anthropic_build_body_ok request body h]
    refine ⟨hb, ?_, ?_, ?_⟩
    · rw [hb]
      exact List.filter_sublist _
    · intro m hm
      rw [hb] at hm
      exact bne_iff_ne.mp (List.mem_filter.mp hm).2
    · intro m hm hrole
      rw [hb]
      exact List.mem_filter.mpr ⟨hm, bne_iff_ne.mpr hrole⟩
  · exact ⟨{ model := "claude-3-5-sonnet"
             messages := [Message.user "hi", Message.assistant "hello", Message.user "bye"]
             max_tokens := 1024
             system := none
             temperature := none
             top_p := none }, rfl, rfl⟩

/-- C4 witness: the general clause applied to the scenario request. -/
theorem C4_anthropic_system_filtering_witness :
    ([Message.user "hi", Message.assistant "hello", Message.user "bye"] : List Message) =
      anthropic_example_request.messages.filter (fun m => m.role != "system") :=
  (C4_anthropic_system_filtering.1 anthropic_example_request
    { model := "claude-3-5-sonnet"
      messages := [Message.user "hi", Message.assistant "hello", Message.user "bye"]
      max_tokens := 1024
      system := none
      temperature := none
      top_p := none } rfl).1

/-- C5: a request with zero non-system messages makes both the Anthropic and
the Gemini adapter return `MissingField` from the translation phase, before
any wire body (and hence any HTTP request or response) exists. -/
theorem C5_empty_messages_missing_field (request : LLMRequest)
    (h : request.messages.filter (fun m => m.role != "system") = []) :
    anthropic_build_body request =
      Except.error (TurbineError.MissingField
        "At least one user or assistant message is required") ∧
    gemini_build_body request =
      Except.error (TurbineError.MissingField
        "At least one user or assistant message is required") := by
  constructor
  · simp [anthropic_build_body, h]
  · have hg : gemini_contents request.messages = [] :=
      (gemini_contents_eq_nil_iff request.messages).mpr h
    simp [gemini_build_body, hg]

/-- C5 witness: a request whose only message is a system message. -/
theorem C5_empty_messages_missing_field_witness :
    anthropic_build_body
      { model := "claude-3-5-sonnet"
        messages := [Message.system "s"]
        system_prompt := none
        max_tokens := some 1024
        temperature := none
        top_p := none
        output_format := OutputFormat.Text } =
      Except.error (TurbineError.MissingField
        "At least one user or assistant message is required") :=
  (C5_empty_messages_missing_field _ (by rfl)).1

/-- C6: the Gemini message conversion maps `assistant` to wire role
`"model"`, everything else except `system` to wire role `"user"`, drops
`system` messages entirely, and preserves the order of the rest (it is the
`filterMap` of the per-message translation); every produced wire role is
`"model"` or `"user"`; the wire body's contents are exactly this
conversion. -/
theorem C6_gemini_role_mapping :
    (∀ messages : List Message,
        gemini_contents messages = messages.filterMap (fun m =>
          if m.role = "system" then none
          else some { role := if m.role = "assistant" then "model" else "user"
                      parts := [{ text := m.content }] })) ∧
    (∀ (messages : List Message) (c : Content), c ∈ gemini_contents messages →
        c.role = "model" ∨ c.role = "user") ∧
    (∀ (request : LLMRequest) (body : GeminiRequestBody),
        gemini_build_body request = Except.ok body →
          body.contents = gemini_contents request.messages) := by
  refine ⟨gemini_contents_eq_filterMap, ?_, ?_⟩
  · intro messages c hc
    rw [gemini_contents_eq_filterMap] at hc
    obtain ⟨m, _, heq⟩ := List.mem_filterMap.mp hc
    split at heq
    · exact absurd heq (by simp)
    · cases Option.some.inj heq
      by_cases h : m.role = "assistant"
      · exact Or.inl (by simp [h])
      · exact Or.inr (by simp [h])
  · intro request body h
    rw [gemini_build_body_ok request body h]

/-- C6 witness: the role-range clause applied to a one-assistant-message
list. -/
theorem C6_gemini_role_mapping_witness :
    ({ role := "model", parts := [{ text := "a" }] } : Content).role = "model" ∨
    ({ role := "model", parts := [{ text := "a" }] } : Content).role = "user" :=
  C6_gemini_role_mapping.2.1 [Message.assistant "a"] _ (by decide)

/-- C7: with a system prompt present, the OpenAI-compatible adapter's
preparation step puts a system message holding the prompt at position 0 and
shifts the original messages back unchanged, regardless of any system
message already in the list (the system-message count always grows by one,
so duplication is possible); with no system prompt the list is copied
verbatim.  In `Text` mode this step is exactly the wire message list. -/
theorem C7_openai_system_prompt_insertion :
    (∀ (p : String) (messages : List Message),
        openai_insert_system_prompt (some p) messages = Message.system p :: messages) ∧
    (∀ messages : List Message, openai_insert_system_prompt none messages = messages) ∧
    (∀ (p : String) (messages : List Message),
        (openai_insert_system_prompt (some p) messages).countP (fun m => m.role == "system") =
          messages.countP (fun m => m.role == "system") + 1) ∧
    (∀ request : LLMRequest, request.output_format = OutputFormat.Text →
        (openai_build_body request).messages =
          openai_insert_system_prompt request.system_prompt request.messages) := by
  refine ⟨fun p messages => rfl, fun messages => rfl, ?_, ?_⟩
  · intro p messages
    simp [openai_insert_system_prompt, List.countP_cons, Message.system, Message.new]
  · intro request h
    simp [openai_build_body, openai_json_inject, h]

/-- C7 witness: inserting into a list that already holds a system message
yields two system messages, with the originals shifted back unchanged. -/
theorem C7_openai_system_prompt_insertion_witness :
    openai_insert_system_prompt (some "p") [Message.system "old", Message.user "hi"] =
      [Message.system "p", Message.system "old", Message.user "hi"] ∧
    (openai_build_body
      { model := "gpt-4o-mini"
        messages := [Message.user "hi"]
        system_prompt := some "p"
        max_tokens := some 1024
        temperature := none
        top_p := none
        output_format := OutputFormat.Text }).messages =
      openai_insert_system_prompt (some "p") [Message.user "hi"] :=
  ⟨C7_openai_system_prompt_insertion.1 "p" [Message.system "old", Message.user "hi"],
   C7_openai_system_prompt_insertion.2.2.2 _ rfl⟩

/-- C8: the Anthropic wire `system` field is the request's system prompt
joined to the fixed JSON instruction by a single space in JSON mode when a
prompt is present, exactly the instruction in JSON mode when absent, and the
unchanged prompt option (omitted when `none`) in text mode; any produced
wire body carries exactly this field. -/
theorem C8_anthropic_system_field :
    (∀ p : String, anthropic_system (some p) OutputFormat.Json =
        some (p ++ " " ++ anthropic_json_instruction)) ∧
    (anthropic_system none OutputFormat.Json = some anthropic_json_instruction) ∧
    (∀ sp : Option String, anthropic_system sp OutputFormat.Text = sp) ∧
    (∀ (request : LLMRequest) (body : AnthropicRequestBody),
        anthropic_build_body request = Except.ok body →
          body.system = anthropic_system request.system_prompt request.output_format) := by
  refine ⟨fun p => rfl, rfl, fun sp => rfl, ?_⟩
  intro request body h
  rw [anthropic_build_body_ok request body h]

/-- C8 witness: the wire-body clause applied to a JSON-mode request with a
system prompt, evaluated to the concatenated literal. -/
theorem C8_anthropic_system_field_witness :
    ({ model := "m"
       messages := [Message.user "hi"]
       max_tokens := 1024
       system := anthropic_system (some "Be terse.") OutputFormat.Json
       temperature := none
       top_p := none } : AnthropicRequestBody).system =
      anthropic_system (some "Be terse.") OutputFormat.Json ∧
    anthropic_system (some "Be terse.") OutputFormat.Json =
      some ("Be terse. You must respond with valid JSON only. Start your response with an opening brace \x7b.") :=
  ⟨C8_anthropic_system_field.2.2.2
    { model := "m"
      messages := [Message.user "hi"]
      system_prompt := some "Be terse."
      max_tokens := some 1024
      temperature := none
      top_p := none
      output_format := OutputFormat.Json } _ rfl, rfl⟩

/-- C9: a facade without a recorded default model fails `send` with
`MissingField` before building any request; explicit-vendor construction
records no default model; with a default model, `send` builds exactly the
one-user-message request against that model and hands it to the bound
adapter. -/
theorem C9_send_default_model :
    (∀ (client : TurbineClient) (text : String), client.default_model = none →
        TurbineClient.send_build client text =
          Except.error (TurbineError.MissingField
            "No default model set. Use from_model() constructor or send_request() directly")) ∧
    (∀ (provider : Provider) (api_key : String),
        (TurbineClient.new_with_key provider api_key).default_model = none) ∧
    (∀ (client : TurbineClient) (m text : String), client.default_model = some m →
        TurbineClient.send_build client text =
          Except.ok ((LLMRequest.new m).with_message (Message.user text)) ∧
        ((LLMRequest.new m).with_message (Message.user text)).messages = [Message.user text] ∧
        ((LLMRequest.new m).with_message (Message.user text)).model = m) := by
  refine ⟨?_, fun provider api_key => rfl, ?_⟩
  · intro client text h
    simp [TurbineClient.send_build, h]
  · intro client m text h
    refine ⟨?_, rfl, rfl⟩
    simp [TurbineClient.send_build, h]

/-- C9 witness: an explicit-vendor facade fails; a facade with a default
model builds the one-message request. -/
theorem C9_send_default_model_witness :
    TurbineClient.send_build (TurbineClient.new_with_key Provider.OpenAI "k") "hi" =
      Except.error (TurbineError.MissingField
        "No default model set. Use from_model() constructor or send_request() directly") ∧
    TurbineClient.send_build
        { provider := Provider.OpenAI, api_key := "k", default_model := some "gpt-4o-mini" }
        "hi" =
      Except.ok ((LLMRequest.new "gpt-4o-mini").with_message (Message.user "hi")) :=
  ⟨C9_send_default_model.1 (TurbineClient.new_with_key Provider.OpenAI "k") "hi" rfl,
   (C9_send_default_model.2.2
     { provider := Provider.OpenAI, api_key := "k", default_model := some "gpt-4o-mini" }
     "gpt-4o-mini" "hi" rfl).1⟩

theorem applyStep_max_tokens_eq (r : LLMRequest) (s : BuilderStep)
    (h : s.isWithMaxTokens = false) : (applyStep r s).max_tokens = r.max_tokens := by
  cases s <;> simp_all [applyStep, BuilderStep.isWithMaxTokens, LLMRequest.with_message,
    LLMRequest.with_messages, LLMRequest.with_system_prompt, LLMRequest.with_max_tokens,
    LLMRequest.with_temperature, LLMRequest.with_top_p, LLMRequest.with_output_format]

theorem applyStep_max_tokens_isSome (r : LLMRequest) (s : BuilderStep)
    (h : r.max_tokens.isSome = true) : (applyStep r s).max_tokens.isSome = true := by
  cases s <;> simp_all [applyStep, BuilderStep.isWithMaxTokens, LLMRequest.with_message,
    LLMRequest.with_messages, LLMRequest.with_system_prompt, LLMRequest.with_max_tokens,
    LLMRequest.with_temperature, LLMRequest.with_top_p, LLMRequest.with_output_format]

theorem applySteps_max_tokens_eq (steps : List BuilderStep) (r : LLMRequest)
    (h : ∀ s ∈ steps, s.isWithMaxTokens = false) :
    (applySteps r steps).max_tokens = r.max_tokens := by
  induction steps generalizing r with
  | nil => rfl
  | cons s rest ih =>
    have hs : (applyStep r s).max_tokens = r.max_tokens :=
      applyStep_max_tokens_eq r s (h s (List.mem_cons_self s rest))
    calc (applySteps r (s :: rest)).max_tokens
        = (applySteps (applyStep r s) rest).max_tokens := rfl
      _ = (applyStep r s).max_tokens :=
          ih (applyStep r s) (fun t ht => h t (List.mem_cons_of_mem s ht))
      _ = r.max_tokens := hs

theorem applySteps_max_tokens_isSome (steps : List BuilderStep) (r : LLMRequest)
    (h : r.max_tokens.isSome = true) : (applySteps r steps).max_tokens.isSome = true := by
  induction steps generalizing r with
  | nil => exact h
  | cons s rest ih => exact ih (applyStep r s) (applyStep_max_tokens_isSome r s h)

/-- C10: every builder chain starting from `LLMRequest::new` that never uses
`with_max_tokens` yields `max_tokens = Some(1024)`; every builder chain at
all yields a present `max_tokens`, so the OpenAI adapter's
omit-absent-`max_tokens` branch and the Anthropic adapter's
default-to-1024 branch cannot fire on builder-constructed requests (the
OpenAI body field is `some 1024` rather than the omitted `none`, and the
Anthropic body takes the stored value). -/
theorem C10_builder_max_tokens :
    (∀ (model : String) (steps : List BuilderStep),
        (∀ s ∈ steps, s.isWithMaxTokens = false) →
          (applySteps (LLMRequest.new model) steps).max_tokens = some 1024 ∧
          (openai_build_body (applySteps (LLMRequest.new model) steps)).max_tokens = some 1024 ∧
          (∀ body : AnthropicRequestBody,
              anthropic_build_body (applySteps (LLMRequest.new model) steps) = Except.ok body →
                body.max_tokens = 1024)) ∧
    (∀ (model : String) (steps : List BuilderStep),
        (applySteps (LLMRequest.new model) steps).max_tokens.isSome = true) := by
  constructor
  · intro model steps h
    have hmt : (applySteps (LLMRequest.new model) steps).max_tokens = some 1024 :=
      applySteps_max_tokens_eq steps (LLMRequest.new model) h
    refine ⟨hmt, hmt, ?_⟩
    intro body hb
    rw [anthropic_build_body_ok _ body hb]
    simp [hmt]
  · intro model steps
    exact applySteps_max_tokens_isSome steps (LLMRequest.new model) rfl

/-- C10 witness: a concrete chain without `with_max_tokens`. -/
theorem C10_builder_max_tokens_witness :
    (applySteps (LLMRequest.new "gpt-4o-mini")
      [BuilderStep.withSystemPrompt "be brief",
       BuilderStep.withMessage (Message.user "hi")]).max_tokens = some 1024 :=
  (C10_builder_max_tokens.1 "gpt-4o-mini"
    [BuilderStep.withSystemPrompt "be brief", BuilderStep.withMessage (Message.user "hi")]
    (by intro s hs; rcases List.mem_cons.mp hs with h | h
        · subst h; rfl
        · rcases List.mem_cons.mp h with h2 | h2
          · subst h2; rfl
          · exact absurd h2 (List.not_mem_nil s))).1
